import Mathlib

/-!
Verification development for `sp-rest-api.js`, a thin SharePoint REST client.

The JavaScript source is shallowly embedded: each prototype method becomes a
Lean function over an explicit client value, the single HTTP dispatch becomes
a record describing the `$.ajax` settings that would be sent, and the two
string polyfills (`String.prototype.format`, `String.prototype.includes`)
become executable functions on character lists.
-/

namespace SpJs

/- ## String polyfills (source lines 264-294) -/

/-- Does the pattern (first argument) match at the head of the second list?
Used to model `String.prototype.indexOf` reaching a hit at some offset. -/
def leadMatch : List Char → List Char → Bool
  | [], _ => true
  | _ :: _, [] => false
  | a :: as, b :: bs => a == b && leadMatch as bs

/-- Does `sub` occur as a contiguous run somewhere in the list?  This is the
observable content of `this.indexOf(search, 0) !== -1` in the `includes`
polyfill (source lines 281-294); the polyfill's early length test rejects
exactly the cases where no offset can host the pattern, so it never changes
the answer. -/
def occursIn (sub : List Char) : List Char → Bool
  | [] => leadMatch sub []
  | c :: cs => leadMatch sub (c :: cs) || occursIn sub cs

/-- Model of `url.includes(search)` (no start argument is ever passed in this
code base). -/
def strIncludes (s search : String) : Bool :=
  occursIn search.data s.data

/-- Numeric value of a run of decimal digit characters, as JavaScript's
array-index coercion would read it. -/
def digitsVal (ds : List Char) : Nat :=
  ds.foldl (fun a c => a * 10 + (c.toNat - 48)) 0

/-- Model of `args[number]` inside the `format` polyfill: `arguments` is an
array-like object whose own index properties are the canonical decimal
numerals `"0"`, `"1"`, ...; a key with leading zeros misses them and the
lookup yields `undefined` (here `none`). -/
def argsLookup (args : List String) (key : List Char) : Option String :=
  if key == (Nat.repr (digitsVal key)).data then args.get? (digitsVal key)
  else none

/-- Scanner state for the global regex pass of the `format` polyfill:
either plain copying, or inside a candidate placeholder with the digits read
so far. -/
inductive FmtMode where
  | copy : FmtMode
  | ph (ds : List Char) : FmtMode

/-- Global scan of `this.replace(/.../g, ...)` in the `format` polyfill
(source lines 270-278): copy characters until an opening brace, then try to
match a `\x7bdigits\x7d` placeholder.  In placeholder mode, a closing brace
after at least one digit replaces the placeholder by the corresponding
argument when that argument is defined and keeps it verbatim otherwise; any
other non-digit character means the regex match fails and scanning resumes
right after the opening brace, which is exactly the digits already consumed
(none of which can start a new match) followed by the current character. -/
def fmtRun (args : List String) : FmtMode → List Char → List Char
  | .copy, [] => []
  | .copy, c :: cs =>
    if c == '{' then fmtRun args (.ph []) cs
    else c :: fmtRun args .copy cs
  | .ph ds, [] => '{' :: ds
  | .ph ds, c :: cs =>
    if c.isDigit then fmtRun args (.ph (ds ++ [c])) cs
    else if c == '}' && !ds.isEmpty then
      match argsLookup args ds with
      | some a => a.data ++ fmtRun args .copy cs
      | none => '{' :: ds ++ '}' :: fmtRun args .copy cs
    else if c == '{' then '{' :: ds ++ fmtRun args (.ph []) cs
    else '{' :: ds ++ c :: fmtRun args .copy cs

/-- Copy-mode entry point of the scanner. -/
def fmtGo (args : List String) (l : List Char) : List Char :=
  fmtRun args .copy l

end SpJs

/-- The `String.prototype.format` polyfill (source lines 264-279): replaces
placeholders like `{0}`, `{1}` with the values of the corresponding
arguments, leaving a placeholder untouched when its argument is undefined. -/
def String.format (s : String) (args : List String) : String :=
  String.mk (SpJs.fmtGo args s.data)

namespace SpJs

/- ## Data model -/

/-- A JavaScript value as far as the `itemId` argument of `getItem` is
concerned: enough to express falsiness (`!itemId`) and the string coercion
performed when the value is spliced into the URL template. -/
inductive JsVal where
  | null
  | undef
  | num (n : Int)
  | str (s : String)
deriving DecidableEq

/-- JavaScript truthiness of a `JsVal`: `null`, `undefined`, `0` and the
empty string are falsy. -/
def JsVal.truthy : JsVal → Bool
  | .null => false
  | .undef => false
  | .num n => n != 0
  | .str s => s != ""

/-- String coercion of a `JsVal`, as the `+` operator applies it inside the
`format` replacement. -/
def JsVal.toStr : JsVal → String
  | .null => "null"
  | .undef => "undefined"
  | .num n => toString n
  | .str s => s

/-- The `SpRestApi.Verbosity` enum (source lines 47-58). -/
def Verbosity.COMPACT : String := "application/json;odata=nometadata"

/-- See `Verbosity.COMPACT`. -/
def Verbosity.MINIMAL : String := "application/json;odata=minimalmetadata"

/-- See `Verbosity.COMPACT`. -/
def Verbosity.VERBOSE : String := "application/json;odata=verbose"

/-- The `urls` sub-object of the options (source lines 31-34). -/
structure Urls where
  list : String
  item : String
deriving DecidableEq

/-- The fully-populated `SpRestApiOptions` record, fields in source order
(source lines 21-35).  Callbacks are abstract values of type `κ`. -/
structure Options (κ : Type) where
  onsuccess : κ
  onerror : κ
  listTitle : String
  maxItems : Nat
  recursiveFetch : Bool
  verbosity : String
  siteUrl : String
  token : String
  urls : Urls
deriving DecidableEq

/-- A partial `SpRestApiOptions` object as passed to the constructor or to
`.config()`: absent fields are `none`.  jQuery's `$.extend` copies only the
properties present on the source object (and skips `undefined` ones), so a
`none` field leaves the target's value in place. -/
structure PartialOptions (κ : Type) where
  onsuccess : Option κ := none
  onerror : Option κ := none
  listTitle : Option String := none
  maxItems : Option Nat := none
  recursiveFetch : Option Bool := none
  verbosity : Option String := none
  siteUrl : Option String := none
  token : Option String := none
  urls : Option Urls := none
deriving DecidableEq

/-- Effect of `$.extend(target, source)` on the target's fields (shallow
merge: a supplied `urls` object replaces the whole pair). -/
def mergeOptions (base : Options κ) (p : PartialOptions κ) : Options κ where
  onsuccess := p.onsuccess.getD base.onsuccess
  onerror := p.onerror.getD base.onerror
  listTitle := p.listTitle.getD base.listTitle
  maxItems := p.maxItems.getD base.maxItems
  recursiveFetch := p.recursiveFetch.getD base.recursiveFetch
  verbosity := p.verbosity.getD base.verbosity
  siteUrl := p.siteUrl.getD base.siteUrl
  token := p.token.getD base.token
  urls := p.urls.getD base.urls

/-- The host environment the constructor reads: `console.log`, the
`_spPageContextInfo.webAbsoluteUrl` global (when present and truthy) and the
value of the `__REQUESTDIGEST` DOM element (when present). -/
structure Env (κ : Type) where
  consoleLog : κ
  spPageContextWebAbsoluteUrl : Option String
  requestDigestValue : Option String

/-- The `this.defaultOptions` object built by the constructor (source lines
21-35). -/
def Env.defaultOptions (e : Env κ) : Options κ where
  onsuccess := e.consoleLog
  onerror := e.consoleLog
  listTitle := ""
  maxItems := 100
  recursiveFetch := true
  verbosity := Verbosity.VERBOSE
  siteUrl := e.spPageContextWebAbsoluteUrl.getD ""
  token := e.requestDigestValue.getD ""
  urls :=
    { list := "/_api/web/lists/getbytitle(\x27{0}\x27)/items"
      item := "/_api/web/lists/getbytitle(\x27{0}\x27)/items({1})" }

/-- An `SpRestApi` instance.  In the source, `this.options` is assigned
`$.extend(this.defaultOptions, options)`, i.e. the very `defaultOptions`
object mutated in place, so the two properties alias one object; the value
model keeps both fields and updates them together where the source mutates
the shared object. -/
structure SpRestApi (κ : Type) where
  defaultOptions : Options κ
  options : Options κ
deriving DecidableEq

/-- The constructor `new SpRestApi(options)` (source lines 16-38). -/
def SpRestApi.new (e : Env κ) (options : PartialOptions κ) : SpRestApi κ :=
  let merged := mergeOptions e.defaultOptions options
  { defaultOptions := merged, options := merged }

/-- `SpRestApi.prototype.config` (source lines 115-119): merges the supplied
partial options into `this.defaultOptions` (mutating it) and points
`this.options` at the result; returns `this`, which in this state-passing
embedding is the updated instance itself. -/
def SpRestApi.config (s : SpRestApi κ) (options : PartialOptions κ) : SpRestApi κ :=
  let merged := mergeOptions s.defaultOptions options
  { defaultOptions := merged, options := merged }

/-- `SpRestApi.prototype.addMaxItems` (source lines 128-133). -/
def SpRestApi.addMaxItems (s : SpRestApi κ) (url : String) : String :=
  let url := url ++ (if strIncludes url "?" then "&" else "?")
  url ++ "$top=" ++ toString s.options.maxItems

/-- The settings object handed to `$.ajax` by `loadUrl`: the dispatched
request.  `success`/`error` are the callbacks attached to the request; their
types are parameters because `refreshDigest` installs its own handlers. -/
structure AjaxCall (σ ε : Type) where
  url : String
  type : String
  cache : Bool
  contentType : String
  acceptHeader : String
  xRequestDigest : String
  success : σ
  error : ε
deriving DecidableEq

/-- `SpRestApi.prototype.loadUrl` (source lines 199-219): dispatches one
request with the configured verbosity as both content type and `Accept`
header and the configured token as the `X-RequestDigest` header. -/
def SpRestApi.loadUrl (s : SpRestApi κ) (url method : String) (success : σ)
    (error : ε) : AjaxCall σ ε where
  url := url
  type := method
  cache := false
  contentType := s.options.verbosity
  acceptHeader := s.options.verbosity
  xRequestDigest := s.options.token
  success := success
  error := error

/-- `SpRestApi.prototype.generateGetAllListItemsUrl` (source lines
149-154). -/
def SpRestApi.generateGetAllListItemsUrl (s : SpRestApi κ) : String :=
  s.addMaxItems (s.options.siteUrl ++ s.options.urls.list.format [s.options.listTitle])

/-- Names bound in the enclosing (global) scope by this script: only the
`SpRestApi` constructor itself.  `generateGetAllListItemsUrl` exists solely
as a property of `SpRestApi.prototype`. -/
def scriptGlobals : List String := ["SpRestApi"]

/-- `SpRestApi.prototype.getAllItems` (source lines 139-142).  Line 140
calls `generateGetAllListItemsUrl()` without the `this.` qualifier; no
global of that name exists, so evaluation raises a `ReferenceError` before
any request is dispatched.  The then-branch records what the call would do
if the name resolved. -/
def SpRestApi.getAllItems (s : SpRestApi κ) : Except String (AjaxCall κ κ) :=
  if scriptGlobals.contains "generateGetAllListItemsUrl" then
    .ok (s.loadUrl s.generateGetAllListItemsUrl "GET" s.options.onsuccess s.options.onerror)
  else
    .error "ReferenceError: generateGetAllListItemsUrl is not defined"

/-- `SpRestApi.prototype.getAllItemsFromListSubfolder` (source lines
162-174). -/
def SpRestApi.getAllItemsFromListSubfolder (s : SpRestApi κ)
    (subfolderName : String) : AjaxCall κ κ :=
  let fileref := "Lists/" ++ s.options.listTitle ++ "/" ++ subfolderName ++ "/"
  let url := s.generateGetAllListItemsUrl
  let url := url ++ "&$filter=substringof(\x27" ++ fileref ++ "\x27, FileRef)"
  s.loadUrl url "GET" s.options.onsuccess s.options.onerror

/-- `SpRestApi.prototype.getItem` (source lines 181-187): throws on a falsy
`itemId`, otherwise dispatches a GET to the single-item URL. -/
def SpRestApi.getItem (s : SpRestApi κ) (itemId : JsVal) :
    Except String (AjaxCall κ κ) :=
  if !itemId.truthy then .error "The list item ID must not be empty."
  else
    let url := s.options.siteUrl ++
      s.options.urls.item.format [s.options.listTitle, itemId.toStr]
    .ok (s.loadUrl url "GET" s.options.onsuccess s.options.onerror)

/-- Number of HTTP requests an operation dispatches: one per returned ajax
settings object, none when the operation throws first. -/
def issuedCount : Except String (AjaxCall σ ε) → Nat
  | .ok _ => 1
  | .error _ => 0

/- ## refreshDigest (source lines 229-258) -/

/-- The `GetContextWebInformation` object of a context-info response; the
`FormDigestValue` property may be absent (`none`). -/
structure CtxWebInfo where
  FormDigestValue : Option String
deriving DecidableEq

/-- One level of the context-info response envelope (the object found under
`data.d` or `data.value`). -/
structure CtxBody where
  GetContextWebInformation : Option CtxWebInfo
deriving DecidableEq

/-- The context-info response body: may carry a `d` property (verbose mode)
and/or a `value` property (nometadata/minimalmetadata modes). -/
structure CtxEnvelope where
  d : Option CtxBody
  value : Option CtxBody
deriving DecidableEq

/-- The truthiness chain `data && data.d && data.d.GetContextWebInformation
&& data.d.GetContextWebInformation.FormDigestValue` (source lines 234-235),
returning the digest when every link is truthy (a present, non-empty
string). -/
def verboseFormDigest (data : Option CtxEnvelope) : Option String := do
  let e ← data
  let b ← e.d
  let w ← b.GetContextWebInformation
  let v ← w.FormDigestValue
  if v = "" then none else some v

/-- The corresponding chain through `data.value` (source lines 239-240). -/
def valueFormDigest (data : Option CtxEnvelope) : Option String := do
  let e ← data
  let b ← e.value
  let w ← b.GetContextWebInformation
  let v ← w.FormDigestValue
  if v = "" then none else some v

/-- What a `refreshDigest` continuation does when it runs: assigns a raw
string to the instance's `options` property (that is what lines 237 and 242
do — they overwrite the whole `this.options` slot with the digest string,
not `this.options.token`), possibly invoking the caller's callback
afterwards; or raises; or would invoke a caller-supplied error callback
(which neither continuation ever does). -/
inductive HandlerAct (κ : Type) where
  | assignOptionsSlot (tokenValue : String) (callbackInvoked : Bool)
  | raise (msg : String)
  | invokeCallback (cb : κ)
deriving DecidableEq

/-- The `success` continuation of `refreshDigest` (source lines 233-250).
`callbackIsFn` records whether `typeof callback === 'function'`. -/
def refreshDigestSuccess (data : Option CtxEnvelope) (callbackIsFn : Bool) :
    HandlerAct κ :=
  match verboseFormDigest data with
  | some v => .assignOptionsSlot v callbackIsFn
  | none =>
    match valueFormDigest data with
    | some v => .assignOptionsSlot v callbackIsFn
    | none => .raise "Unable to obtain SharePoint authorization token."

/-- The `error` continuation of `refreshDigest` (source lines 253-255): it
unconditionally throws (note: no trailing period in this message, unlike the
one thrown by the success continuation). -/
def refreshDigestError : HandlerAct κ :=
  .raise "Unable to obtain SharePoint authorization token"

/-- Reading `this.siteUrl` on an `SpRestApi` instance: the constructor only
ever stores `defaultOptions` and `options` on the instance (the site URL
lives at `this.options.siteUrl`), so this property is `undefined`. -/
def SpRestApi.siteUrlProp (_s : SpRestApi κ) : Option String := none

/-- JavaScript `+` on a possibly-undefined left operand and a string:
`undefined + s` stringifies the left operand. -/
def jsPlusStr : Option String → String → String
  | some a, b => a ++ b
  | none, b => "undefined" ++ b

/-- `SpRestApi.prototype.refreshDigest` (source lines 229-258): POSTs to
`this.siteUrl + '/_api/contextinfo'` through `loadUrl`, installing the two
continuations above. -/
def SpRestApi.refreshDigest (s : SpRestApi κ) (callbackIsFn : Bool) :
    AjaxCall (Option CtxEnvelope → HandlerAct κ) (HandlerAct κ) :=
  s.loadUrl (jsPlusStr s.siteUrlProp "/_api/contextinfo") "POST"
    (fun data => refreshDigestSuccess data callbackIsFn)
    refreshDigestError

/- ## Concrete test fixtures -/

/-- A concrete callback universe for closed instantiations: `console.log`
plus one user success and one user error callback. -/
inductive Cb where
  | log
  | userSuccess
  | userError
deriving DecidableEq

/-- A concrete SharePoint-page environment. -/
def demoEnv : Env Cb where
  consoleLog := .log
  spPageContextWebAbsoluteUrl := some "https://contoso/sites/a"
  requestDigestValue := some "0xDIGEST"

/-- A concrete client: constructed on `demoEnv` with user callbacks and list
title `Docs`. -/
def demoApi : SpRestApi Cb :=
  SpRestApi.new demoEnv
    { onsuccess := some .userSuccess, onerror := some .userError
      listTitle := some "Docs" }

/-- A concrete verbose-mode context-info success body carrying the digest
`0xNEW`. -/
def demoCtxData : Option CtxEnvelope :=
  some { d := some { GetContextWebInformation := some { FormDigestValue := some "0xNEW" } }
         value := none }

/-- The same client with the active `recursiveFetch` flag replaced: two such
copies are configurations that differ only in the pagination flag. -/
def SpRestApi.withRF (s : SpRestApi κ) (b : Bool) : SpRestApi κ :=
  { s with options := { s.options with recursiveFetch := b } }

end SpJs

namespace SpJs

/- ## Helper lemmas about the string scanners -/

/-- A pattern matches at the head of itself followed by anything. -/
theorem leadMatch_self_append (sub q : List Char) :
    leadMatch sub (sub ++ q) = true := by
  induction sub with
  | nil => rfl
  | cons a as ih => simp [leadMatch, ih]

/-- A pattern occurs in any list that embeds it contiguously. -/
theorem occursIn_append_mid (m p q : List Char) :
    occursIn m (p ++ (m ++ q)) = true := by
  induction p with
  | nil =>
    cases m with
    | nil => cases q <;> simp [occursIn, leadMatch]
    | cons a as =>
      simp only [List.nil_append, occursIn, Bool.or_eq_true]
      exact Or.inl (leadMatch_self_append (a :: as) q)
  | cons b bs ih => simp [occursIn, ih]

/-- Occurrence of a single character is membership. -/
theorem occursIn_singleton (c : Char) (l : List Char) :
    occursIn [c] l = l.contains c := by
  induction l with
  | nil => rfl
  | cons b bs ih =>
    simp only [occursIn, leadMatch, List.contains_cons, ih, Bool.and_true]

/-- The `includes` polyfill applied to `"?"` tests for the presence of the
question-mark character. -/
theorem strIncludes_qm (url : String) :
    strIncludes url "?" = url.data.contains '?' :=
  occursIn_singleton '?' url.data

/-- In placeholder mode the scanner absorbs a run of digits into its
state. -/
theorem fmtRun_digits (args : List String) (ds : List Char) :
    ∀ (acc rest : List Char), (∀ c ∈ ds, c.isDigit = true) →
      fmtRun args (.ph acc) (ds ++ rest) = fmtRun args (.ph (acc ++ ds)) rest := by
  induction ds with
  | nil => simp
  | cons c cs ih =>
    intro acc rest h
    have hc : c.isDigit = true := h c (List.mem_cons_self c cs)
    have step : fmtRun args (.ph acc) ((c :: cs) ++ rest)
        = fmtRun args (.ph (acc ++ [c])) (cs ++ rest) := by
      simp [fmtRun, hc]
    rw [step, ih (acc ++ [c]) rest (fun x hx => h x (List.mem_cons_of_mem c hx))]
    simp

/-- In placeholder mode with at least one digit banked, a closing brace
resolves the placeholder. -/
theorem fmtRun_close (args : List String) (ds rest : List Char) (h : ds ≠ []) :
    fmtRun args (.ph ds) ('}' :: rest)
      = (match argsLookup args ds with
         | some a => a.data ++ fmtRun args .copy rest
         | none => '{' :: ds ++ '}' :: fmtRun args .copy rest) := by
  cases ds with
  | nil => exact absurd rfl h
  | cons d ds' => rfl

/-- Splice behaviour of the `format` polyfill on the single-item URL
template, for arbitrary argument strings. -/
theorem format_item_data (t i : String) :
    ("/_api/web/lists/getbytitle(\x27{0}\x27)/items({1})".format [t, i]).data
      = "/_api/web/lists/getbytitle(\x27".data
        ++ (t.data ++ ("\x27)/".data ++ ("items(".data ++ (i.data ++ [')'])))) := rfl

end SpJs

namespace SpJs

/- ## Claim theorems -/

/-- Claim C1.  The claim says `getAllItems` builds the list-collection URL
from the configured site URL and list title, appends the page-size limit and
issues a GET routed to the configured callbacks.  The code instead calls the
bare identifier `generateGetAllListItemsUrl` (line 140 lacks `this.`), which
is not a global, so every call raises a `ReferenceError` and no request is
issued; the URL builder itself, had it been reached, produces exactly the
claimed URL. -/
theorem getAllItems_reference_error :
    demoApi.getAllItems
      = .error "ReferenceError: generateGetAllListItemsUrl is not defined"
  ∧ demoApi.generateGetAllListItemsUrl
      = "https://contoso/sites/a/_api/web/lists/getbytitle(\x27Docs\x27)/items?$top=100" := by
  exact ⟨rfl, by decide⟩

/-- Claim C2.  The claim says `refreshDigest` POSTs to the configured site
base URL followed by `/_api/contextinfo` and, on a token-bearing success
response, stores the token string into the config's `token` field before
invoking the callback.  The code reads `this.siteUrl` (never set; the
configured value lives at `this.options.siteUrl`), so the URL is
`undefined/_api/contextinfo` whatever the configuration, and the success
continuation assigns the token string to the whole `this.options` slot
rather than to the `token` field. -/
theorem refreshDigest_url_and_store_bug :
    (demoApi.refreshDigest true).url = "undefined/_api/contextinfo"
  ∧ (demoApi.refreshDigest true).type = "POST"
  ∧ demoApi.options.siteUrl = "https://contoso/sites/a"
  ∧ (demoApi.refreshDigest true).url ≠ demoApi.options.siteUrl ++ "/_api/contextinfo"
  ∧ (demoApi.refreshDigest true).success demoCtxData
      = HandlerAct.assignOptionsSlot "0xNEW" true := by
  refine ⟨rfl, rfl, by decide, by decide, by decide⟩

/-- Claim C7.  `refreshDigest` reports failure by raising, not through an
error callback: its success continuation raises when the response matches
neither token-bearing shape, its error continuation always raises, and
neither continuation ever invokes a callback of the caller's. -/
theorem refreshDigest_failure_raises :
    (∀ (data : Option CtxEnvelope) (cb : Bool),
        verboseFormDigest data = none → valueFormDigest data = none →
        (refreshDigestSuccess data cb : HandlerAct Cb)
          = .raise "Unable to obtain SharePoint authorization token.")
  ∧ (refreshDigestError : HandlerAct Cb)
      = .raise "Unable to obtain SharePoint authorization token"
  ∧ (∀ (data : Option CtxEnvelope) (cb : Bool) (c : Cb),
        refreshDigestSuccess data cb ≠ HandlerAct.invokeCallback c)
  ∧ (∀ c : Cb, (refreshDigestError : HandlerAct Cb) ≠ HandlerAct.invokeCallback c) := by
  refine ⟨?_, rfl, ?_, ?_⟩
  · intro data cb h1 h2
    simp [refreshDigestSuccess, h1, h2]
  · intro data cb c
    simp only [refreshDigestSuccess]
    split <;> simp
    split <;> simp
  · intro c
    simp [refreshDigestError]

/-- Witness for C7 at the concrete shapeless response `null`. -/
theorem refreshDigest_failure_raises_witness :
    (refreshDigestSuccess (none : Option CtxEnvelope) true : HandlerAct Cb)
      = .raise "Unable to obtain SharePoint authorization token." :=
  refreshDigest_failure_raises.1 none true rfl rfl

/-- Counterexample for claim C9: the claim asserts that exactly one request
is issued per `getAllItems` call, but the call raises before dispatching
(see C1), so zero requests are issued. -/
theorem getAllItems_not_one_request :
    issuedCount demoApi.getAllItems ≠ 1 := by decide

/-- Claim C9 (amended).  The observable behaviour of the operations is
identical for any two configurations that differ only in the
`recursiveFetch` flag — no fetch-more loop exists — but `getAllItems`
issues zero requests (it raises a `ReferenceError`), not exactly one. -/
theorem recursiveFetch_no_effect :
    ∀ (s : SpRestApi Cb) (b₁ b₂ : Bool),
      (s.withRF b₁).getAllItems = (s.withRF b₂).getAllItems
    ∧ issuedCount ((s.withRF b₁).getAllItems) = 0
    ∧ (∀ itemId, (s.withRF b₁).getItem itemId = (s.withRF b₂).getItem itemId)
    ∧ (∀ sub, (s.withRF b₁).getAllItemsFromListSubfolder sub
          = (s.withRF b₂).getAllItemsFromListSubfolder sub)
    ∧ (∀ (url method : String) (suc err : Cb),
        (s.withRF b₁).loadUrl url method suc err
          = (s.withRF b₂).loadUrl url method suc err)
    ∧ (∀ cb, (s.withRF b₁).refreshDigest cb = (s.withRF b₂).refreshDigest cb) :=
  fun _ _ _ =>
    ⟨rfl, rfl, fun _ => rfl, fun _ => rfl, fun _ _ _ _ => rfl, fun _ => rfl⟩

end SpJs

namespace SpJs

/-- Claim C3.  `getItem` raises synchronously exactly when `itemId` is
falsy — in particular for `0` and `null` — and otherwise issues a GET whose
URL ends in `items(<itemId>)` (given the default single-item template). -/
theorem getItem_validation_and_url (s : SpRestApi Cb) (itemId : JsVal)
    (hurls : s.options.urls.item = "/_api/web/lists/getbytitle(\x27{0}\x27)/items({1})") :
    (itemId.truthy = false →
       s.getItem itemId = .error "The list item ID must not be empty.")
  ∧ (itemId.truthy = true → ∃ (call : AjaxCall Cb Cb) (p : List Char),
       s.getItem itemId = .ok call ∧ call.type = "GET"
       ∧ call.url.data = p ++ ("items(" ++ itemId.toStr ++ ")").data)
  ∧ JsVal.truthy (.num 0) = false ∧ JsVal.truthy .null = false := by
  refine ⟨?_, ?_, rfl, rfl⟩
  · intro h
    simp [SpRestApi.getItem, h]
  · intro h
    refine ⟨s.loadUrl (s.options.siteUrl
          ++ s.options.urls.item.format [s.options.listTitle, itemId.toStr])
          "GET" s.options.onsuccess s.options.onerror,
        s.options.siteUrl.data
          ++ ("/_api/web/lists/getbytitle(\x27".data
              ++ (s.options.listTitle.data ++ "\x27)/".data)), ?_, rfl, ?_⟩
    · simp [SpRestApi.getItem, h]
    · show (s.options.siteUrl
          ++ s.options.urls.item.format [s.options.listTitle, itemId.toStr]).data = _
      rw [hurls, String.data_append, format_item_data]
      have hr : (")" : String).data = [')'] := rfl
      simp only [String.data_append, hr, List.append_assoc]

/-- Witness for C3: on the concrete client, item id `0` is rejected and
item id `5` produces a GET whose URL ends in `items(5)`. -/
theorem getItem_validation_and_url_witness :
    demoApi.getItem (.num 0) = .error "The list item ID must not be empty."
  ∧ (∃ (call : AjaxCall Cb Cb) (p : List Char),
       demoApi.getItem (.num 5) = .ok call ∧ call.type = "GET"
       ∧ call.url.data = p ++ ("items(" ++ JsVal.toStr (.num 5) ++ ")").data) :=
  ⟨(getItem_validation_and_url demoApi (.num 0) rfl).1 rfl,
   (getItem_validation_and_url demoApi (.num 5) rfl).2.1 rfl⟩

/-- Claim C4.  `getAllItemsFromListSubfolder` requests the list-collection
URL with an appended `$filter` whose predicate contains the literal
substring `Lists/<listTitle>/<subfolderName>/`; concretely, with list
`Docs` and subfolder `Drafts` the URL contains `Lists/Docs/Drafts/`. -/
theorem getAllItemsFromListSubfolder_filter :
    (∀ (s : SpRestApi Cb) (sub : String),
       (s.getAllItemsFromListSubfolder sub).url
         = s.generateGetAllListItemsUrl ++ "&$filter=substringof(\x27"
           ++ ("Lists/" ++ s.options.listTitle ++ "/" ++ sub ++ "/") ++ "\x27, FileRef)"
     ∧ strIncludes (s.getAllItemsFromListSubfolder sub).url
         ("Lists/" ++ s.options.listTitle ++ "/" ++ sub ++ "/") = true
     ∧ (s.getAllItemsFromListSubfolder sub).type = "GET")
  ∧ strIncludes (demoApi.getAllItemsFromListSubfolder "Drafts").url
      "Lists/Docs/Drafts/" = true := by
  refine ⟨?_, by decide⟩
  intro s sub
  refine ⟨rfl, ?_, rfl⟩
  show occursIn ("Lists/" ++ s.options.listTitle ++ "/" ++ sub ++ "/").data
      (((s.generateGetAllListItemsUrl ++ "&$filter=substringof(\x27"
          ++ ("Lists/" ++ s.options.listTitle ++ "/" ++ sub ++ "/"))
        ++ "\x27, FileRef)").data) = true
  generalize ("Lists/" ++ s.options.listTitle ++ "/" ++ sub ++ "/" : String) = F
  simp only [String.data_append, List.append_assoc]
  rw [← List.append_assoc s.generateGetAllListItemsUrl.data]
  exact occursIn_append_mid F.data _ _

end SpJs

namespace SpJs

/-- Claim C5.  `config({token: "t"})` followed by `config({listTitle: "X"})`
retains token `"t"`; each merge leaves every field the partial object does
not name at its prior value (the prior value being the shared
`defaultOptions`/`options` object that `$.extend` mutates in place), and the
call returns the client itself — in this state-passing embedding, the
updated client whose two option slots are the single merged object. -/
theorem config_merge_retains_fields (s : SpRestApi Cb) :
    ((s.config { token := some "t" }).config { listTitle := some "X" }).options.token = "t"
  ∧ ((s.config { token := some "t" }).config { listTitle := some "X" }).options.listTitle = "X"
  ∧ (∀ p : PartialOptions Cb,
       (s.config p).options = (s.config p).defaultOptions
     ∧ (p.onsuccess = none → (s.config p).options.onsuccess = s.defaultOptions.onsuccess)
     ∧ (p.onerror = none → (s.config p).options.onerror = s.defaultOptions.onerror)
     ∧ (p.listTitle = none → (s.config p).options.listTitle = s.defaultOptions.listTitle)
     ∧ (p.maxItems = none → (s.config p).options.maxItems = s.defaultOptions.maxItems)
     ∧ (p.recursiveFetch = none →
          (s.config p).options.recursiveFetch = s.defaultOptions.recursiveFetch)
     ∧ (p.verbosity = none → (s.config p).options.verbosity = s.defaultOptions.verbosity)
     ∧ (p.siteUrl = none → (s.config p).options.siteUrl = s.defaultOptions.siteUrl)
     ∧ (p.token = none → (s.config p).options.token = s.defaultOptions.token)
     ∧ (p.urls = none → (s.config p).options.urls = s.defaultOptions.urls)) := by
  refine ⟨rfl, rfl, fun p => ⟨rfl, ?_, ?_, ?_, ?_, ?_, ?_, ?_, ?_, ?_⟩⟩ <;>
    (intro h; simp [SpRestApi.config, mergeOptions, h])

/-- Witness for C5: the frame conditions applied to the concrete client and
the empty partial object. -/
theorem config_merge_retains_fields_witness :
    (demoApi.config {}).options.token = demoApi.defaultOptions.token
  ∧ (demoApi.config {}).options.listTitle = demoApi.defaultOptions.listTitle := by
  have h := (config_merge_retains_fields demoApi).2.2 ({} : PartialOptions Cb)
  exact ⟨h.2.2.2.2.2.2.2.2.1 rfl, h.2.2.2.1 rfl⟩

/-- Claim C6.  `addMaxItems` appends `?` when the URL contains no `?`
character and `&` otherwise, followed by `$top=` and the configured
`maxItems` value. -/
theorem addMaxItems_query_separator (s : SpRestApi Cb) (url : String) :
    (url.data.contains '?' = false →
       s.addMaxItems url = url ++ "?" ++ "$top=" ++ toString s.options.maxItems)
  ∧ (url.data.contains '?' = true →
       s.addMaxItems url = url ++ "&" ++ "$top=" ++ toString s.options.maxItems) := by
  constructor <;>
    (intro h; simp only [SpRestApi.addMaxItems, strIncludes_qm, h,
      Bool.false_eq_true, if_false, if_true])

/-- Witness for C6 at a URL without and a URL with an existing query
string. -/
theorem addMaxItems_query_separator_witness :
    demoApi.addMaxItems "https://a/b" = "https://a/b" ++ "?" ++ "$top=" ++ toString demoApi.options.maxItems
  ∧ demoApi.addMaxItems "https://a/b?x=1"
      = "https://a/b?x=1" ++ "&" ++ "$top=" ++ toString demoApi.options.maxItems :=
  ⟨(addMaxItems_query_separator demoApi "https://a/b").1 (by decide),
   (addMaxItems_query_separator demoApi "https://a/b?x=1").2 (by decide)⟩

/-- Claim C8.  `loadUrl` dispatches the request with the `url` argument
unmodified, both the `Accept` header and the content type equal to the
configured verbosity, the `X-RequestDigest` header equal to the configured
token, and the supplied callbacks installed; when the configured verbosity
is one of the three enumerated literals, so is the emitted header. -/
theorem loadUrl_headers (s : SpRestApi Cb) (url method : String) (suc err : Cb) :
    (s.loadUrl url method suc err).url = url
  ∧ (s.loadUrl url method suc err).type = method
  ∧ (s.loadUrl url method suc err).contentType = s.options.verbosity
  ∧ (s.loadUrl url method suc err).acceptHeader = s.options.verbosity
  ∧ (s.loadUrl url method suc err).xRequestDigest = s.options.token
  ∧ (s.loadUrl url method suc err).success = suc
  ∧ (s.loadUrl url method suc err).error = err
  ∧ (s.options.verbosity = Verbosity.COMPACT ∨ s.options.verbosity = Verbosity.MINIMAL
       ∨ s.options.verbosity = Verbosity.VERBOSE →
     ((s.loadUrl url method suc err).acceptHeader = Verbosity.COMPACT
       ∨ (s.loadUrl url method suc err).acceptHeader = Verbosity.MINIMAL
       ∨ (s.loadUrl url method suc err).acceptHeader = Verbosity.VERBOSE)
     ∧ (s.loadUrl url method suc err).contentType
         = (s.loadUrl url method suc err).acceptHeader) :=
  ⟨rfl, rfl, rfl, rfl, rfl, rfl, rfl, fun h => ⟨h, rfl⟩⟩

/-- Witness for C8: the concrete client runs in verbose mode, so the header
literal is the verbose one. -/
theorem loadUrl_headers_witness :
    ((demoApi.loadUrl "u" "GET" Cb.log Cb.log).acceptHeader = Verbosity.COMPACT
      ∨ (demoApi.loadUrl "u" "GET" Cb.log Cb.log).acceptHeader = Verbosity.MINIMAL
      ∨ (demoApi.loadUrl "u" "GET" Cb.log Cb.log).acceptHeader = Verbosity.VERBOSE)
  ∧ (demoApi.loadUrl "u" "GET" Cb.log Cb.log).contentType
      = (demoApi.loadUrl "u" "GET" Cb.log Cb.log).acceptHeader :=
  (loadUrl_headers demoApi "u" "GET" Cb.log Cb.log).2.2.2.2.2.2.2
    (Or.inr (Or.inr rfl))

/-- Claim C10.  The `format` polyfill leaves any placeholder whose argument
is undefined (`args[number]` misses) unchanged in the output; in particular
a template formatted with too few arguments keeps the literal placeholder
text, as the concrete conjunct illustrates. -/
theorem format_keeps_undefined_placeholder :
    (∀ (args : List String) (ds : List Char), ds ≠ [] →
        (∀ c ∈ ds, c.isDigit = true) → argsLookup args ds = none →
        String.format (String.mk ('{' :: ds ++ ['}'])) args
          = String.mk ('{' :: ds ++ ['}'])) 
  ∧ String.format "a{0}b{1}c" ["X"] = "aXb{1}c" := by
  refine ⟨?_, by decide⟩
  intro args ds hne hdig hmiss
  show String.mk (fmtRun args (.ph []) (ds ++ ['}'])) = _
  rw [fmtRun_digits args ds [] ['}'] hdig, List.nil_append,
    fmtRun_close args ds [] hne, hmiss]
  rfl

/-- Witness for C10: `\x7b1\x7d` with a single argument is preserved. -/
theorem format_keeps_undefined_placeholder_witness :
    String.format "{1}" ["X"] = "{1}" :=
  format_keeps_undefined_placeholder.1 ["X"] ['1'] (by decide) (by decide) (by decide)

end SpJs
